import Mathlib

/-!
# Verification of the climbing-conditions dashboard (`src/app.py`)

Shallow embedding of the daily aggregation, favorability scoring and
dashboard rendering pipeline of `app.py`.  Numeric values (temperatures,
humidities, precipitation, favorability alphas) are modelled as exact
rationals (`ℚ`); calendar days as integers (`ℤ`); a local timestamp keeps
its calendar day and its local hour and minute, which is all the source
inspects (`t.date()`, `t.hour`, `t.time() >= time(12, 0)`).

The source carries a location's series as four parallel equal-length lists
`times, temps_f, hums, rain_mm` that are always consumed zipped; the
embedding fuses them into one `List Sample`.  Drawing calls on the
matplotlib axes are modelled as a list of `DrawEvent`s (the per-day
annotations: day separators, favorability shading, labels, rain glyphs);
pure layout geometry (pixel positions, colors, fonts) is elided.
-/

namespace Climbing

/-- A local timestamp: calendar day plus local time of day.  The source
only ever inspects `t.date()`, `t.hour`, and `t.time() >= time(12, 0)`
(the latter is equivalent to `12 ≤ hour` since minutes/seconds are
non-negative). -/
structure Timestamp where
  day : ℤ
  hour : ℕ
  minute : ℕ
deriving DecidableEq

/-- One normalized forecast sample (one zipped entry of the source's
parallel lists `times, temps, hums, rain_mm`).  At `parse_forecast` output
`temp` is in Celsius; after `c_to_f_list` (and for the aggregator and the
renderer, which receive `temps_f`) it is in Fahrenheit. -/
structure Sample where
  time : Timestamp
  temp : ℚ
  hum : ℚ
  rain : ℚ
deriving DecidableEq

/-- Python's `max` over a list, with the source's explicit `0` default for
the empty case (`max(...) if idxs else 0` in `app.py` line 85). -/
def pymax : List ℚ → ℚ
  | [] => 0
  | x :: xs => xs.foldl max x

/-- Python's `min` over a list of days (`min(all_days)` in line 141); the
`0` default is junk, never consulted (the source guards with
`if all_days`). -/
def pyminZ : List ℤ → ℤ
  | [] => 0
  | x :: xs => xs.foldl min x

/-- Python's `max` over a list of days (`max(all_days)` in line 188). -/
def pymaxZ : List ℤ → ℤ
  | [] => 0
  | x :: xs => xs.foldl max x

/-- Insert into a sorted list of days (helper for `sortedDays`). -/
def insertSorted (x : ℤ) : List ℤ → List ℤ
  | [] => [x]
  | y :: ys => if x ≤ y then x :: y :: ys else y :: insertSorted x ys

/-- Ascending insertion sort on days (Python's `sorted`). -/
def sortedDays (l : List ℤ) : List ℤ := l.foldr insertSorted []

/-- `sorted({t.date() for t in times})` (line 69): the distinct calendar
days of a sample sequence, ascending. -/
def allDaysOf (samples : List Sample) : List ℤ :=
  sortedDays (samples.map (fun s => s.time.day)).dedup

/-! ## Forecast Normalizer (`parse_forecast`, `c_to_f_list`) -/

/-- The `"rain"` field of a raw forecast entry: absent, present but not a
dict (`isinstance(entry["rain"], dict)` fails), or a dict with optional
`"3h"` and `"1h"` keys. -/
inductive RawRain where
  | absent : RawRain
  | nonDict : RawRain
  | rdict (h3 : Option ℚ) (h1 : Option ℚ) : RawRain
deriving DecidableEq

/-- The `"main"` sub-object of a raw entry, with optional `"temp"` and
`"humidity"` keys (absence raises `KeyError` in the source). -/
structure RawMain where
  temp : Option ℚ
  humidity : Option ℚ
deriving DecidableEq

/-- One raw entry of `data["list"]`.  `dt` is the already-decoded local
timestamp (`datetime.fromtimestamp(entry["dt"])`; the epoch decoding is
elided); `none` models a missing required key, which raises `KeyError`. -/
structure RawEntry where
  dt : Option Timestamp
  main : Option RawMain
  rain : RawRain
deriving DecidableEq

/-- Lines 46-48: `rain_vol = 0`; if `"rain"` is present and a dict,
`entry["rain"].get("3h", entry["rain"].get("1h", 0))`. -/
def entry_rain : RawRain → ℚ
  | RawRain.rdict h3 h1 => h3.getD (h1.getD 0)
  | _ => 0

/-- Does this raw entry lack one of the required fields (`dt`,
`main.temp`, `main.humidity`)?  Accessing such a field raises `KeyError`
in the source. -/
def requiredMissing (e : RawEntry) : Bool :=
  e.dt.isNone ||
    match e.main with
    | none => true
    | some m => m.temp.isNone || m.humidity.isNone

/-- Parse one raw entry (the body of the loop in lines 41-49); a missing
required field is the raised `KeyError`. -/
def parse_entry (e : RawEntry) : Except String Sample :=
  match e.dt with
  | none => Except.error "KeyError: dt"
  | some t =>
    match e.main with
    | none => Except.error "KeyError: main"
    | some m =>
      match m.temp with
      | none => Except.error "KeyError: temp"
      | some tc =>
        match m.humidity with
        | none => Except.error "KeyError: humidity"
        | some h => Except.ok { time := t, temp := tc, hum := h, rain := entry_rain e.rain }

/-- `parse_forecast` (lines 39-50): builds the normalized series; the
first entry with a missing required field aborts the whole parse (the
`KeyError` propagates out of the loop, discarding every entry). -/
def parse_forecast : List RawEntry → Except String (List Sample)
  | [] => Except.ok []
  | e :: rest =>
    match parse_entry e with
    | Except.error msg => Except.error msg
    | Except.ok s =>
      match parse_forecast rest with
      | Except.error msg => Except.error msg
      | Except.ok xs => Except.ok (s :: xs)

/-- Line 54: `tc * 9 / 5 + 32`. -/
def c_to_f (tc : ℚ) : ℚ := tc * 9 / 5 + 32

/-- `c_to_f_list` (lines 53-54): elementwise Celsius → Fahrenheit. -/
def c_to_f_list (temps_c : List ℚ) : List ℚ := temps_c.map c_to_f

/-! ## Daily Aggregator (`daily_metrics_and_alpha_with_rain`, lines 57-115) -/

/-- Line 62: `9 <= t.hour < 16`, the activity window [09:00, 16:00). -/
def inWindow (t : Timestamp) : Bool := 9 ≤ t.hour && t.hour < 16

/-- The samples of day `d` that fall inside the activity window (the
entries appended to `daily_temps[day]` / `daily_humidity[day]` in the loop
of lines 61-67). -/
def windowSamples (samples : List Sample) (d : ℤ) : List Sample :=
  samples.filter (fun s => s.time.day == d && inWindow s.time)

/-- All samples of day `d` (`[i for i, t in enumerate(times) if t.date() == day]`,
line 84). -/
def daySamples (samples : List Sample) (d : ℤ) : List Sample :=
  samples.filter (fun s => s.time.day == d)

/-- `daily_temps[day]`: window-restricted temperatures of day `d`. -/
def daily_temps (samples : List Sample) (d : ℤ) : List ℚ :=
  (windowSamples samples d).map (fun s => s.temp)

/-- `daily_humidity[day]`: window-restricted humidities of day `d`. -/
def daily_humidity (samples : List Sample) (d : ℤ) : List ℚ :=
  (windowSamples samples d).map (fun s => s.hum)

/-- `daily_rain[day]` / `rain_map[day]`: the running maximum of lines
66-67, seeded by the `defaultdict(float)` zero.  Note the update sits
INSIDE the `if 9 <= t.hour < 16` block, so only window samples
contribute; `daily_rain.get(day, 0.0)` (line 78) yields `0` for a day
with no window sample. -/
def daily_rain (samples : List Sample) (d : ℤ) : ℚ :=
  ((windowSamples samples d).map (fun s => s.rain)).foldl max 0

/-- Line 73: `min_alpha = 0.0`. -/
def min_alpha : ℚ := 0

/-- Line 74: `max_alpha = 0.8`. -/
def max_alpha : ℚ := 0.8

/-- The temperature branch of lines 92-101, as a function of `max_temp`. -/
def temp_score (max_temp : ℚ) : ℚ :=
  if 80 ≤ max_temp ∨ max_temp ≤ 32 then 0
  else if 60 ≤ max_temp ∧ max_temp ≤ 69 then 1
  else if 40 < max_temp ∧ max_temp < 60 then (max_temp - 40) / (60 - 40)
  else if 69 < max_temp ∧ max_temp < 80 then (80 - max_temp) / (80 - 69)
  else 0

/-- Which branch of the lines 92-101 conditional fires: `0` for the
too-hot-or-too-cold branch, `1` for the ideal band, `2`/`3` for the two
ramps, `4` for the final `else` fallback.  Guards are verbatim those of
`temp_score`. -/
def temp_score_branch (max_temp : ℚ) : ℕ :=
  if 80 ≤ max_temp ∨ max_temp ≤ 32 then 0
  else if 60 ≤ max_temp ∧ max_temp ≤ 69 then 1
  else if 40 < max_temp ∧ max_temp < 60 then 2
  else if 69 < max_temp ∧ max_temp < 80 then 3
  else 4

/-- The humidity branch of lines 103-108, as a function of `max_hum`. -/
def hum_score (max_hum : ℚ) : ℚ :=
  if max_hum ≤ 50 then 1
  else if 80 ≤ max_hum then 0
  else (80 - max_hum) / (80 - 50)

/-- Lines 80-87: the day's max temperature — window-restricted max when
the window lists are non-empty, else max over all of the day's samples,
else `0`. -/
def day_max_temp (samples : List Sample) (d : ℤ) : ℚ :=
  if !(daily_temps samples d).isEmpty && !(daily_humidity samples d).isEmpty then
    pymax (daily_temps samples d)
  else
    pymax ((daySamples samples d).map (fun s => s.temp))

/-- Lines 80-87: the day's max humidity, same selection rule. -/
def day_max_hum (samples : List Sample) (d : ℤ) : ℚ :=
  if !(daily_temps samples d).isEmpty && !(daily_humidity samples d).isEmpty then
    pymax (daily_humidity samples d)
  else
    pymax ((daySamples samples d).map (fun s => s.hum))

/-- Lines 89-111: the favorability for one day, from its rain amount and
max temperature/humidity. -/
def alpha_of (rain_amt max_temp max_hum : ℚ) : ℚ :=
  if rain_amt > 0 then 0
  else min_alpha + (max_alpha - min_alpha) * (temp_score max_temp * hum_score max_hum)

/-- `alpha_map[day]` for a day of the sequence (the loop of lines
75-113). -/
def alpha_map (samples : List Sample) (d : ℤ) : ℚ :=
  alpha_of (daily_rain samples d) (day_max_temp samples d) (day_max_hum samples d)

/-! ## Dashboard Renderer (`plot_location_forecast`, lines 118-197) -/

/-- The per-day drawing calls issued by `plot_location_forecast`:
`vline` = the midnight separator (line 148), `shade` = the favorability
`axvspan` (line 164), `dayLabel` = the weekday-name text (line 169),
`statsLabel` = the stats text of line 173-176 (`none` = "T: TBD, H: TBD",
`some (t, h)` = "T: {t}°F, H: {h}%"), `rainGlyph` = the umbrella icon plus
inches text of lines 178-185 (carrying the inches value), `endVline` =
the trailing separator after the last day (line 190). -/
inductive DrawEvent where
  | vline (day : ℤ) : DrawEvent
  | shade (day : ℤ) (alpha : ℚ) : DrawEvent
  | dayLabel (day : ℤ) : DrawEvent
  | statsLabel (day : ℤ) (stats : Option (ℚ × ℚ)) : DrawEvent
  | rainGlyph (day : ℤ) (inches : ℚ) : DrawEvent
  | endVline (day : ℤ) : DrawEvent
deriving DecidableEq

/-- Line 150: `any(t.date() == day and t.time() >= time(12, 0) for t in times)`. -/
def has_post_noon_data (samples : List Sample) (d : ℤ) : Bool :=
  samples.any (fun s => s.time.day == d && 12 ≤ s.time.hour)

/-- The drawing calls of one iteration of the day loop (lines 143-185):
the first day is skipped outright (lines 144-145). -/
def day_events (samples : List Sample) (first_day : ℤ) (d : ℤ) : List DrawEvent :=
  if d = first_day then []
  else
    let is_incomplete_day := !(has_post_noon_data samples d)
    let alpha : ℚ := if is_incomplete_day then 0 else alpha_map samples d
    let stats : Option (ℚ × ℚ) :=
      if is_incomplete_day then none else some (day_max_temp samples d, day_max_hum samples d)
    let rain_in : ℚ := daily_rain samples d / 25.4
    [DrawEvent.vline d]
      ++ (if alpha > 0 then [DrawEvent.shade d alpha] else [])
      ++ [DrawEvent.dayLabel d, DrawEvent.statsLabel d stats]
      ++ (if rain_in > 0 then [DrawEvent.rainGlyph d rain_in] else [])

/-- `plot_location_forecast`'s per-day annotation pass (lines 141-190):
the day loop over `all_days` with `first_day = min(all_days)`, then the
trailing separator at the end of `max(all_days)`. -/
def plot_location_forecast (samples : List Sample) (all_days : List ℤ) : List DrawEvent :=
  ((all_days.map (day_events samples (pyminZ all_days))).flatten)
    ++ (if all_days.isEmpty then [] else [DrawEvent.endVline (pymaxZ all_days)])

/-- The full per-location pipeline as composed in lines 236-239:
aggregate, then render. -/
def renderLocation (samples : List Sample) : List DrawEvent :=
  plot_location_forecast samples (allDaysOf samples)

/-! ## Dashboard assembly (`generate_dashboard_plot`, `index`) -/

/-- Outcome of the fetch for one location: the network/HTTP layer is
external, so a fetch either fails (any exception) or yields the raw entry
list of the provider response. -/
inductive FetchResult where
  | failed (msg : String) : FetchResult
  | fetched (raw : List RawEntry) : FetchResult
deriving DecidableEq

/-- Lines 212-218: the `try` block parses and converts; any exception
(fetch failure or `KeyError` in `parse_forecast`) degrades the location
to empty series. -/
def seriesOf : FetchResult → List Sample
  | FetchResult.failed _ => []
  | FetchResult.fetched raw =>
    match parse_forecast raw with
    | Except.error _ => []
    | Except.ok samples => samples.map (fun s => { s with temp := c_to_f s.temp })

/-- `generate_dashboard_plot` (lines 200-242), drawing surface elided:
collects every location's series, returns `none` when `all_times` is
empty (line 226-227), else one rendered band per location (an empty,
title-only band for a location with no samples, lines 233-235). -/
def generate_dashboard_plot (fetches : List (String × FetchResult)) :
    Option (List (String × List DrawEvent)) :=
  let all_data := fetches.map (fun p => (p.1, seriesOf p.2))
  let all_times := (all_data.map (fun p => p.2.map (fun s => s.time))).flatten
  if all_times.isEmpty then none
  else some (all_data.map (fun p => (p.1, if p.2.isEmpty then [] else renderLocation p.2)))

/-- The three responses the `index` route can produce (lines 244-257):
the missing-credential error page, the "No data available to plot." page,
and the dashboard page embedding the rendered figure. -/
inductive Page where
  | missingKey : Page
  | noData : Page
  | dashboard (fig : List (String × List DrawEvent)) : Page
deriving DecidableEq

/-- The `index` route (lines 244-257): missing/empty API key
short-circuits; a `none` figure yields the no-data page; otherwise the
figure is rendered to the page. -/
def index (api_key : Option String) (fetches : List (String × FetchResult)) : Page :=
  if api_key.getD "" = "" then Page.missingKey
  else
    match generate_dashboard_plot fetches with
    | none => Page.noData
    | some fig => Page.dashboard fig

/-! ## Concrete inputs used by witnesses and counterexamples -/

/-- One day, samples at 10:00 (in window, 65 °F) and 18:00 (outside the
window, rain 5 mm). -/
def c1ce : List Sample := [⟨⟨0, 10, 0⟩, 65, 40, 0⟩, ⟨⟨0, 18, 0⟩, 65, 40, 5⟩]

/-- One day, a single in-window sample with 3 mm of rain. -/
def c1w : List Sample := [⟨⟨0, 10, 0⟩, 65, 40, 3⟩]

/-- One day, samples at 10:00 (65 °F) and 20:00 (70 °F, outside the
window). -/
def c5w : List Sample := [⟨⟨0, 10, 0⟩, 65, 40, 0⟩, ⟨⟨0, 20, 0⟩, 70, 80, 0⟩]

/-- A single day whose only sample is at 06:00: the day is both the first
day in range and incomplete. -/
def c2ce : List Sample := [⟨⟨0, 6, 0⟩, 68, 50, 0⟩]

/-- Two days; the second day's only sample is at 09:30, inside the
activity window but before noon. -/
def c2w : List Sample := [⟨⟨0, 13, 0⟩, 65, 40, 0⟩, ⟨⟨1, 9, 30⟩, 68, 50, 0⟩]

/-- A single day whose only sample is at 10:00 with 5 mm of rain: the
first day in range, carrying rain. -/
def c7ce : List Sample := [⟨⟨0, 10, 0⟩, 68, 50, 5⟩]

/-- Two days; the second day has 3 mm of rain at 10:00 and a dry sample
at 13:00. -/
def c7w : List Sample :=
  [⟨⟨0, 13, 0⟩, 65, 40, 0⟩, ⟨⟨1, 10, 0⟩, 65, 40, 3⟩, ⟨⟨1, 13, 0⟩, 65, 40, 0⟩]

/-- Does a drawing call place a rain glyph? -/
def isRainGlyph : DrawEvent → Bool
  | DrawEvent.rainGlyph _ _ => true
  | _ => false

/-- A raw response whose single entry lacks the required `main`
sub-object. -/
def c10bad : List RawEntry := [{ dt := some ⟨0, 10, 0⟩, main := none, rain := RawRain.absent }]

/-- A raw response of two well-formed entries, the first without a rain
field, the second with a 3-hour accumulation of 2 mm. -/
def c10good : List RawEntry :=
  [{ dt := some ⟨0, 10, 0⟩, main := some ⟨some 20, some 55⟩, rain := RawRain.absent },
   { dt := some ⟨0, 13, 0⟩, main := some ⟨some 21, some 50⟩, rain := RawRain.rdict (some 2) none }]

/-- A fetch outcome list where the single location failed. -/
def c8fetches : List (String × FetchResult) := [("Farley", FetchResult.failed "boom")]

/-! ## Helper lemmas on the scoring curves -/

lemma temp_score_nonneg (t : ℚ) : 0 ≤ temp_score t := by
  unfold temp_score
  split_ifs with h1 h2 h3 h4
  · norm_num
  · norm_num
  · apply div_nonneg <;> linarith [h3.1]
  · apply div_nonneg <;> linarith [h4.2]
  · norm_num

lemma temp_score_le_one (t : ℚ) : temp_score t ≤ 1 := by
  unfold temp_score
  split_ifs with h1 h2 h3 h4
  · norm_num
  · norm_num
  · rw [div_le_one (by norm_num)]; linarith [h3.2]
  · rw [div_le_one (by norm_num)]; linarith [h4.1]
  · norm_num

lemma hum_score_nonneg (h : ℚ) : 0 ≤ hum_score h := by
  unfold hum_score
  split_ifs with h1 h2
  · norm_num
  · norm_num
  · push_neg at h2
    apply div_nonneg <;> linarith

lemma hum_score_le_one (h : ℚ) : hum_score h ≤ 1 := by
  unfold hum_score
  split_ifs with h1 h2
  · norm_num
  · norm_num
  · push_neg at h1
    rw [div_le_one (by norm_num)]; linarith

/-! ## Spec reference definitions (for refinement comparison only) -/

/-- The spec's §4.3 temperature desirability curve, written from the
spec's words (≤32 or ≥80 → 0; [60,69] → 1; (40,60) ramp up; (69,80) ramp
down; any other value → 0), to be compared with the source's
`temp_score`. -/
def spec_temperatureScore (t : ℚ) : ℚ :=
  if t ≤ 32 ∨ 80 ≤ t then 0
  else if 60 ≤ t ∧ t ≤ 69 then 1
  else if 40 < t ∧ t < 60 then (t - 40) / 20
  else if 69 < t ∧ t < 80 then (80 - t) / 11
  else 0

/-- The spec's §4.3 humidity desirability curve, written from the spec's
words (≤50 → 1; ≥80 → 0; in between a linear ramp from 1 down to 0), to
be compared with the source's `hum_score`. -/
def spec_humidityScore (h : ℚ) : ℚ :=
  if h ≤ 50 then 1
  else if 80 ≤ h then 0
  else (80 - h) / 30

/-- The claim's reading of per-day max precipitation: the maximum over
ALL of the day's samples, not restricted to the activity window (a
reference definition following the spec's words, to be compared with the
source's window-restricted `daily_rain`). -/
def spec_day_rain_max (samples : List Sample) (d : ℤ) : ℚ :=
  pymax ((daySamples samples d).map (fun s => s.rain))

/-! ## Claims about the scoring curves -/

/-- Claim C3, counterexample: the claim says the final else-branch of the
temperature conditional is unreachable for every real max temperature;
at max temperature 36 °F none of the four preceding guards holds and the
fallback branch (index 4) fires, so the claim is false. -/
theorem claim3_counterexample : temp_score_branch 36 = 4 := by
  norm_num [temp_score_branch]

/-- Claim C3, amended: the final else-branch of the temperature scoring
conditional is NOT unreachable — it fires exactly for max temperatures in
(32, 40], where it assigns score 0; outside that interval the four
preceding branches cover every value. -/
theorem claim3_fallback_amended (t : ℚ) :
    (temp_score_branch t = 4 ↔ 32 < t ∧ t ≤ 40) ∧
    (temp_score_branch t = 4 → temp_score t = 0) := by
  constructor
  · unfold temp_score_branch
    split_ifs with h1 h2 h3 h4
    · refine iff_of_false (by norm_num) ?_
      rintro ⟨a, b⟩
      rcases h1 with h | h <;> linarith
    · refine iff_of_false (by norm_num) ?_
      rintro ⟨a, b⟩
      linarith [h2.1]
    · refine iff_of_false (by norm_num) ?_
      rintro ⟨a, b⟩
      linarith [h3.1]
    · refine iff_of_false (by norm_num) ?_
      rintro ⟨a, b⟩
      linarith [h4.1]
    · push_neg at h1 h2 h3 h4
      refine iff_of_true rfl ⟨h1.2, ?_⟩
      by_contra h40
      push_neg at h40
      linarith [h4 (h2 (h3 h40)), h1.1]
  · intro hb
    unfold temp_score_branch at hb
    unfold temp_score
    split_ifs at hb ⊢ <;> simp_all

/-- Claim C3, witness: at max temperature 35 °F the amended claim places
us in the fallback branch with score 0. -/
theorem claim3_witness : temp_score_branch 35 = 4 ∧ temp_score 35 = 0 := by
  have h := claim3_fallback_amended 35
  have hb : temp_score_branch 35 = 4 := h.1.mpr (by norm_num)
  exact ⟨hb, h.2 hb⟩

/-- Claim C4: the source's temperature and humidity scoring curves agree
with the spec's piecewise reference curves everywhere, and take the
specified values at the listed boundary and midpoint inputs. -/
theorem claim4_scoring_curves :
    (∀ t : ℚ, temp_score t = spec_temperatureScore t) ∧
    (∀ h : ℚ, hum_score h = spec_humidityScore h) ∧
    temp_score 32 = 0 ∧ temp_score 60 = 1 ∧ temp_score 69 = 1 ∧ temp_score 80 = 0 ∧
    temp_score 50 = 0.5 ∧ temp_score 74.5 = 0.5 ∧
    hum_score 50 = 1 ∧ hum_score 80 = 0 ∧ hum_score 65 = 0.5 := by
  refine ⟨?_, ?_, ?_, ?_, ?_, ?_, ?_, ?_, ?_, ?_, ?_⟩
  · intro t
    unfold temp_score spec_temperatureScore
    by_cases h1 : t ≤ 32 ∨ 80 ≤ t
    · rw [if_pos h1.symm, if_pos h1]
    · have h1' : ¬(80 ≤ t ∨ t ≤ 32) := fun h => h1 h.symm
      rw [if_neg h1', if_neg h1]
      by_cases h2 : 60 ≤ t ∧ t ≤ 69
      · rw [if_pos h2, if_pos h2]
      · rw [if_neg h2, if_neg h2]
        by_cases h3 : 40 < t ∧ t < 60
        · rw [if_pos h3, if_pos h3]; norm_num
        · rw [if_neg h3, if_neg h3]
          by_cases h4 : 69 < t ∧ t < 80
          · rw [if_pos h4, if_pos h4]; norm_num
          · rw [if_neg h4, if_neg h4]
  · intro h
    unfold hum_score spec_humidityScore
    split_ifs <;> norm_num
  all_goals norm_num [temp_score, hum_score]

/-- Claim C6: the favorability produced by the scorer always lies in
[0, 0.8] (both as the abstract day scorer `alpha_of` and as the per-day
`alpha_map` of a sample sequence), and when the rain override does not
apply it equals 0.8 × (temperature score × humidity score).  (The
incompleteness override lives in the renderer and only ever forces the
value to 0, inside the same interval; see `claim2`.) -/
theorem claim6_alpha_bounds (rain_amt max_temp max_hum : ℚ)
    (samples : List Sample) (d : ℤ) :
    (0 ≤ alpha_of rain_amt max_temp max_hum ∧ alpha_of rain_amt max_temp max_hum ≤ 0.8) ∧
    (0 ≤ alpha_map samples d ∧ alpha_map samples d ≤ 0.8) ∧
    (rain_amt ≤ 0 →
      alpha_of rain_amt max_temp max_hum = 0.8 * (temp_score max_temp * hum_score max_hum)) := by
  have key : ∀ r t h : ℚ, 0 ≤ alpha_of r t h ∧ alpha_of r t h ≤ 0.8 := by
    intro r t h
    unfold alpha_of
    split_ifs with hr
    · norm_num
    · have h1 := temp_score_nonneg t
      have h2 := temp_score_le_one t
      have h3 := hum_score_nonneg h
      have h4 := hum_score_le_one h
      have hmul0 : 0 ≤ temp_score t * hum_score h := mul_nonneg h1 h3
      have hmul1 : temp_score t * hum_score h ≤ 1 := mul_le_one₀ h2 h3 h4
      unfold min_alpha max_alpha
      constructor <;> nlinarith
  refine ⟨key _ _ _, key _ _ _, ?_⟩
  intro hr
  unfold alpha_of
  rw [if_neg (by linarith), min_alpha, max_alpha]
  ring

/-- Claim C6, witness: at rain 0, max temperature 65 °F, max humidity
40 %, the scorer returns exactly 0.8 × (1 × 1). -/
theorem claim6_witness :
    (0 ≤ alpha_of 0 65 40 ∧ alpha_of 0 65 40 ≤ 0.8) ∧
    alpha_of 0 65 40 = 0.8 * (temp_score 65 * hum_score 40) := by
  have h := claim6_alpha_bounds 0 65 40 [] 0
  exact ⟨h.1, h.2.2 (by norm_num)⟩

/-! ## Helper lemmas on python max -/

lemma self_le_foldl_max (l : List ℚ) (a : ℚ) : a ≤ l.foldl max a := by
  induction l generalizing a with
  | nil => exact le_refl a
  | cons x xs ih => exact le_trans (le_max_left a x) (ih (max a x))

lemma le_foldl_max_of_mem {l : List ℚ} {x : ℚ} (hx : x ∈ l) (a : ℚ) : x ≤ l.foldl max a := by
  induction l generalizing a with
  | nil => cases hx
  | cons y ys ih =>
    rcases List.mem_cons.mp hx with h | h
    · subst h
      exact le_trans (le_max_right a x) (self_le_foldl_max ys (max a x))
    · exact ih h (max a y)

lemma foldl_max_eq_or_mem (l : List ℚ) (a : ℚ) : l.foldl max a = a ∨ l.foldl max a ∈ l := by
  induction l generalizing a with
  | nil => exact Or.inl rfl
  | cons x xs ih =>
    rw [List.foldl_cons]
    rcases ih (max a x) with h | h
    · rcases max_choice a x with hm | hm
      · left; rw [h, hm]
      · right; rw [h, hm]; exact List.mem_cons_self x xs
    · right; exact List.mem_cons_of_mem x h

lemma pymax_mem {l : List ℚ} (h : l ≠ []) : pymax l ∈ l := by
  cases l with
  | nil => exact absurd rfl h
  | cons x xs =>
    show xs.foldl max x ∈ x :: xs
    rcases foldl_max_eq_or_mem xs x with h' | h'
    · rw [h']; exact List.mem_cons_self x xs
    · exact List.mem_cons_of_mem x h'

lemma le_pymax {l : List ℚ} {x : ℚ} (hx : x ∈ l) : x ≤ pymax l := by
  cases l with
  | nil => cases hx
  | cons y ys =>
    show x ≤ ys.foldl max y
    rcases List.mem_cons.mp hx with h | h
    · subst h; exact self_le_foldl_max ys x
    · exact le_foldl_max_of_mem h y

lemma windowSamples_eq_nil_of_daySamples {samples : List Sample} {d : ℤ}
    (h : daySamples samples d = []) : windowSamples samples d = [] := by
  rw [List.eq_nil_iff_forall_not_mem] at h ⊢
  intro s hs
  apply h s
  rw [windowSamples, List.mem_filter] at hs
  rw [daySamples, List.mem_filter]
  refine ⟨hs.1, ?_⟩
  have h2 := hs.2
  simp only [Bool.and_eq_true] at h2
  exact h2.1

/-! ## Claims about the daily aggregation -/

/-- Claim C5: for every day, max temperature and max humidity are true
maxima (an element of, and an upper bound of) over the day's
activity-window samples when such samples exist; over all of the day's
samples when the window is empty; and both default to 0 when the day has
no samples at all. -/
theorem claim5_day_maxima (samples : List Sample) (d : ℤ) :
    (windowSamples samples d ≠ [] →
      (day_max_temp samples d ∈ daily_temps samples d ∧
        ∀ x ∈ daily_temps samples d, x ≤ day_max_temp samples d) ∧
      (day_max_hum samples d ∈ daily_humidity samples d ∧
        ∀ x ∈ daily_humidity samples d, x ≤ day_max_hum samples d)) ∧
    (windowSamples samples d = [] → daySamples samples d ≠ [] →
      (day_max_temp samples d ∈ (daySamples samples d).map (fun s => s.temp) ∧
        ∀ x ∈ (daySamples samples d).map (fun s => s.temp), x ≤ day_max_temp samples d) ∧
      (day_max_hum samples d ∈ (daySamples samples d).map (fun s => s.hum) ∧
        ∀ x ∈ (daySamples samples d).map (fun s => s.hum), x ≤ day_max_hum samples d)) ∧
    (daySamples samples d = [] → day_max_temp samples d = 0 ∧ day_max_hum samples d = 0) := by
  refine ⟨?_, ?_, ?_⟩
  · intro hw
    have ht : daily_temps samples d ≠ [] := by
      simpa [daily_temps] using hw
    have hh : daily_humidity samples d ≠ [] := by
      simpa [daily_humidity] using hw
    have hcond : (!(daily_temps samples d).isEmpty && !(daily_humidity samples d).isEmpty)
        = true := by
      simp [List.isEmpty_iff, ht, hh]
    rw [day_max_temp, if_pos hcond, day_max_hum, if_pos hcond]
    exact ⟨⟨pymax_mem ht, fun x hx => le_pymax hx⟩,
      ⟨pymax_mem hh, fun x hx => le_pymax hx⟩⟩
  · intro hw hd
    have ht : daily_temps samples d = [] := by
      simp [daily_temps, hw]
    have hcond : (!(daily_temps samples d).isEmpty && !(daily_humidity samples d).isEmpty)
        = false := by
      simp [List.isEmpty_iff, ht]
    have hmt : (daySamples samples d).map (fun s => s.temp) ≠ [] := by
      simpa using hd
    have hmh : (daySamples samples d).map (fun s => s.hum) ≠ [] := by
      simpa using hd
    rw [day_max_temp, hcond, day_max_hum, hcond]
    simp only [Bool.false_eq_true, if_false]
    exact ⟨⟨pymax_mem hmt, fun x hx => le_pymax hx⟩,
      ⟨pymax_mem hmh, fun x hx => le_pymax hx⟩⟩
  · intro hd
    have hw := windowSamples_eq_nil_of_daySamples hd
    have ht : daily_temps samples d = [] := by
      simp [daily_temps, hw]
    rw [day_max_temp, day_max_hum]
    simp [List.isEmpty_iff, ht, hd, pymax]

/-- Claim C5, witness: a day with a 10:00 sample at 65 °F and a 20:00
sample at 70 °F gets window-restricted max temperature 65 °F, which is a
member of the window temperature list. -/
theorem claim5_witness :
    day_max_temp c5w 0 ∈ daily_temps c5w 0 ∧ day_max_temp c5w 0 = 65 := by
  have h := (claim5_day_maxima c5w 0).1 (by decide)
  refine ⟨h.1.1, ?_⟩
  norm_num [day_max_temp, daily_temps, daily_humidity, windowSamples, daySamples,
    inWindow, c5w, pymax]

/-- Claim C1, counterexample: the claim says max precipitation uses all
samples for the day, and forces favorability 0 whenever it is positive.
With rain falling only at 18:00 (outside the activity window), the
all-samples max precipitation is 5 mm > 0, yet the code's tracked value
is 0 and the day's favorability is 0.8 ≠ 0: the claim is false of the
code. -/
theorem claim1_counterexample :
    spec_day_rain_max c1ce 0 = 5 ∧ daily_rain c1ce 0 = 0 ∧ alpha_map c1ce 0 = 0.8 := by
  norm_num [spec_day_rain_max, daily_rain, alpha_map, alpha_of, day_max_temp, day_max_hum,
    daily_temps, daily_humidity, windowSamples, daySamples, inWindow, c1ce, pymax,
    temp_score, hum_score, min_alpha, max_alpha, max_def]

/-- Claim C1, amended: the per-day max precipitation is tracked only over
the day's samples inside the [09:00, 16:00) activity window (a sample
outside the window never changes it), and whenever that tracked value is
> 0 the day's favorability is 0 regardless of the temperature and
humidity scores. -/
theorem claim1_rain_window_amended (samples : List Sample) (d : ℤ) :
    (0 < daily_rain samples d → alpha_map samples d = 0) ∧
    ∀ s : Sample, inWindow s.time = false →
      daily_rain (samples ++ [s]) d = daily_rain samples d := by
  constructor
  · intro h
    rw [alpha_map, alpha_of, if_pos h]
  · intro s hs
    rw [daily_rain, daily_rain, windowSamples, windowSamples, List.filter_append]
    have hnil : List.filter (fun s' => s'.time.day == d && inWindow s'.time) [s] = [] := by
      simp [hs]
    rw [hnil, List.append_nil]

/-- Claim C1, witness: a single in-window sample with 3 mm of rain yields
tracked max precipitation 3 > 0 and favorability 0. -/
theorem claim1_witness : 0 < daily_rain c1w 0 ∧ alpha_map c1w 0 = 0 := by
  have hr : 0 < daily_rain c1w 0 := by
    norm_num [daily_rain, windowSamples, inWindow, c1w, max_def]
  exact ⟨hr, (claim1_rain_window_amended c1w 0).1 hr⟩

/-- Claim C9: the Celsius→Fahrenheit conversion is exactly
`F = C * 9 / 5 + 32`, applied elementwise (hence uniformly, before the
aggregator ever compares against the Fahrenheit thresholds); in
particular `c_to_f 0 = 32` and `c_to_f 100 = 212`. -/
theorem claim9_c_to_f :
    (c_to_f 0 = 32 ∧ c_to_f 100 = 212) ∧
    ∀ (temps_c : List ℚ) (i : ℕ),
      (c_to_f_list temps_c)[i]? = temps_c[i]?.map (fun tc => tc * 9 / 5 + 32) := by
  refine ⟨⟨by norm_num [c_to_f], by norm_num [c_to_f]⟩, ?_⟩
  intro l i
  rw [c_to_f_list, List.getElem?_map]
  cases l[i]? <;> simp [c_to_f]

/-! ## Helper lemmas on the renderer -/

/-- A favorability shading call can only come from its own day's loop
iteration, and only when that day has post-noon data (the incompleteness
override forces `alpha = 0`, and `axvspan` is guarded by `alpha > 0`). -/
lemma shade_alpha_of_mem {samples : List Sample} {f d d' : ℤ} {a : ℚ}
    (h : DrawEvent.shade d' a ∈ day_events samples f d) :
    has_post_noon_data samples d = true ∧ d' = d := by
  by_cases hfd : d = f
  · rw [day_events, if_pos hfd] at h
    cases h
  · by_cases hp : has_post_noon_data samples d = true
    · refine ⟨hp, ?_⟩
      simp [day_events, if_neg hfd, hp] at h
      exact h.2.1
    · exfalso
      simp only [Bool.not_eq_true] at hp
      simp [day_events, if_neg hfd, hp] at h

/-! ## Claims about the renderer -/

/-- Claim C2, counterexample: the claim says every day with no sample at
or after 12:00 has its stats displayed as "T: TBD, H: TBD"; but for the
FIRST day in range the loop skips the day entirely (lines 144-145), so an
incomplete first day gets no stats label at all. -/
theorem claim2_counterexample :
    (0 : ℤ) ∈ allDaysOf c2ce ∧ has_post_noon_data c2ce 0 = false ∧
    DrawEvent.statsLabel 0 none ∉ renderLocation c2ce := by decide

/-- Claim C2, amended: for every rendered day OTHER THAN the first day in
range, if the day has no sample with local time-of-day at or after 12:00
then no favorability shading is drawn for it and its stats are displayed
as "T: TBD, H: TBD"; the first day in range is skipped outright and gets
neither shading nor any label. -/
theorem claim2_incomplete_amended (samples : List Sample) (d : ℤ)
    (hmem : d ∈ allDaysOf samples) (hfst : d ≠ pyminZ (allDaysOf samples))
    (hpost : has_post_noon_data samples d = false) :
    DrawEvent.statsLabel d none ∈ renderLocation samples ∧
    ∀ a : ℚ, DrawEvent.shade d a ∉ renderLocation samples := by
  constructor
  · have hlab : DrawEvent.statsLabel d none
        ∈ day_events samples (pyminZ (allDaysOf samples)) d := by
      simp [day_events, hfst, hpost]
    rw [renderLocation, plot_location_forecast]
    apply List.mem_append_left
    rw [List.mem_flatten]
    exact ⟨_, List.mem_map_of_mem _ hmem, hlab⟩
  · intro a hsh
    rw [renderLocation, plot_location_forecast] at hsh
    rcases List.mem_append.mp hsh with h | h
    · rw [List.mem_flatten] at h
      rcases h with ⟨l, hl, hel⟩
      rcases List.mem_map.mp hl with ⟨d', hd', rfl⟩
      have hkey := shade_alpha_of_mem hel
      rw [← hkey.2, hpost] at hkey
      cases hkey.1
    · split_ifs at h <;> simp at h

/-- Claim C2, witness: the second day of `c2w` has only a 09:30 sample
(inside the activity window, before noon): it is rendered with a TBD
stats label and no shading, even though its window sample alone would
have scored favorably. -/
theorem claim2_witness :
    DrawEvent.statsLabel 1 none ∈ renderLocation c2w ∧
    DrawEvent.shade 1 (1 / 2) ∉ renderLocation c2w := by
  have h := claim2_incomplete_amended c2w 1 (by decide) (by decide) (by decide)
  exact ⟨h.1, h.2 (1 / 2)⟩

/-- Claim C7, counterexample: the claim says the rain glyph is drawn for
every rainy day INCLUDING the first day in range; but the day loop skips
the first day (lines 144-145), so a first day with tracked rain 5 mm > 0
produces no rain glyph at all. -/
theorem claim7_counterexample :
    0 < daily_rain c7ce 0 ∧ (0 : ℤ) ∈ allDaysOf c7ce ∧
    (renderLocation c7ce).all (fun e => !(isRainGlyph e)) = true := by
  refine ⟨?_, by decide, by decide⟩
  norm_num [daily_rain, windowSamples, inWindow, c7ce, max_def]

/-- Claim C7, amended: for every day OTHER THAN the first day in range
whose tracked max precipitation is > 0, the renderer draws a rain glyph
carrying the precipitation converted from millimeters to inches by
dividing by 25.4, independent of the day's favorability (the glyph is
emitted in both the shaded and unshaded branches); the first day in
range is skipped outright. -/
theorem claim7_rain_glyph_amended (samples : List Sample) (d : ℤ)
    (hmem : d ∈ allDaysOf samples) (hfst : d ≠ pyminZ (allDaysOf samples))
    (hrain : 0 < daily_rain samples d) :
    DrawEvent.rainGlyph d (daily_rain samples d / 25.4) ∈ renderLocation samples := by
  have hpos : (0 : ℚ) < daily_rain samples d / 25.4 := by
    apply div_pos hrain
    norm_num
  have hglyph : DrawEvent.rainGlyph d (daily_rain samples d / 25.4)
      ∈ day_events samples (pyminZ (allDaysOf samples)) d := by
    by_cases hp : has_post_noon_data samples d = true
    · simp [day_events, hfst, hp, hpos]
    · simp only [Bool.not_eq_true] at hp
      simp [day_events, hfst, hp, hpos]
  rw [renderLocation, plot_location_forecast]
  apply List.mem_append_left
  rw [List.mem_flatten]
  exact ⟨_, List.mem_map_of_mem _ hmem, hglyph⟩

/-- Claim C7, witness: the second day of `c7w` has 3 mm of tracked rain,
and the renderer emits its glyph with 3 / 25.4 inches. -/
theorem claim7_witness :
    DrawEvent.rainGlyph 1 (daily_rain c7w 1 / 25.4) ∈ renderLocation c7w := by
  have hr : 0 < daily_rain c7w 1 := by
    norm_num [daily_rain, windowSamples, inWindow, c7w, max_def]
  exact claim7_rain_glyph_amended c7w 1 (by decide) (by decide) hr

/-! ## Claims about the dashboard assembly and parsing -/

lemma parse_entry_spec (e : RawEntry) :
    (requiredMissing e = true → ∃ msg, parse_entry e = Except.error msg) ∧
    (requiredMissing e = false →
      ∃ s, parse_entry e = Except.ok s ∧ s.rain = entry_rain e.rain) := by
  obtain ⟨dt, main, rain⟩ := e
  cases dt with
  | none => exact ⟨fun _ => ⟨_, rfl⟩, fun hc => by simp [requiredMissing] at hc⟩
  | some t =>
    cases main with
    | none => exact ⟨fun _ => ⟨_, rfl⟩, fun hc => by simp [requiredMissing] at hc⟩
    | some m =>
      obtain ⟨mt, mh⟩ := m
      cases mt with
      | none => exact ⟨fun _ => ⟨_, rfl⟩, fun hc => by simp [requiredMissing] at hc⟩
      | some tc =>
        cases mh with
        | none => exact ⟨fun _ => ⟨_, rfl⟩, fun hc => by simp [requiredMissing] at hc⟩
        | some hh =>
          refine ⟨fun hc => ?_, fun _ => ⟨_, rfl, rfl⟩⟩
          simp [requiredMissing] at hc

lemma parse_forecast_error_of_bad :
    ∀ raw : List RawEntry, (∃ e ∈ raw, requiredMissing e = true) →
      ∃ msg, parse_forecast raw = Except.error msg := by
  intro raw
  induction raw with
  | nil =>
    rintro ⟨e, he, _⟩
    cases he
  | cons e rest ih =>
    rintro ⟨e', he', hbad⟩
    rcases List.mem_cons.mp he' with rfl | hmem
    · rcases (parse_entry_spec e').1 hbad with ⟨msg, hmsg⟩
      exact ⟨msg, by simp only [parse_forecast, hmsg]⟩
    · cases hpe : parse_entry e with
      | error msg => exact ⟨msg, by simp only [parse_forecast, hpe]⟩
      | ok s =>
        rcases ih ⟨e', hmem, hbad⟩ with ⟨msg, hmsg⟩
        exact ⟨msg, by simp only [parse_forecast, hpe, hmsg]⟩

lemma parse_forecast_ok_of_good :
    ∀ raw : List RawEntry, (∀ e ∈ raw, requiredMissing e = false) →
      ∃ samples, parse_forecast raw = Except.ok samples ∧
        samples.map (fun s => s.rain) = raw.map (fun e => entry_rain e.rain) := by
  intro raw
  induction raw with
  | nil => exact fun _ => ⟨[], rfl, rfl⟩
  | cons e rest ih =>
    intro hall
    rcases (parse_entry_spec e).2 (hall e (List.mem_cons_self e rest)) with ⟨s, hs, hrain⟩
    rcases ih (fun x hx => hall x (List.mem_cons_of_mem e hx)) with ⟨xs, hxs, hmap⟩
    refine ⟨s :: xs, ?_, ?_⟩
    · simp only [parse_forecast, hs, hxs]
    · simp [hrain, hmap]

/-- Claim C10: a single raw entry with a missing required field
(timestamp, temperature or humidity) fails the parse of the ENTIRE
location, which then degrades to a completely empty series; whereas if
every entry has its required fields the parse succeeds for all entries,
with the optional precipitation field degrading per-entry to 0 (via
`entry_rain`, which maps an absent rain field to 0). -/
theorem claim10_parse_failure (raw : List RawEntry) :
    ((∃ e ∈ raw, requiredMissing e = true) →
      (∃ msg, parse_forecast raw = Except.error msg) ∧
      seriesOf (FetchResult.fetched raw) = []) ∧
    ((∀ e ∈ raw, requiredMissing e = false) →
      ∃ samples, parse_forecast raw = Except.ok samples ∧
        samples.map (fun s => s.rain) = raw.map (fun e => entry_rain e.rain)) := by
  refine ⟨fun hex => ⟨parse_forecast_error_of_bad raw hex, ?_⟩, parse_forecast_ok_of_good raw⟩
  rcases parse_forecast_error_of_bad raw hex with ⟨msg, hmsg⟩
  simp [seriesOf, hmsg]

/-- Claim C10, witness: the one-entry response lacking `main` fails the
whole parse and yields an empty series; the two well-formed entries (one
with no rain field, one with a 3h value of 2 mm) parse fully with rain
values 0 and 2. -/
theorem claim10_witness :
    ((∃ msg, parse_forecast c10bad = Except.error msg) ∧
      seriesOf (FetchResult.fetched c10bad) = []) ∧
    ∃ samples, parse_forecast c10good = Except.ok samples ∧
      samples.map (fun s => s.rain) = c10good.map (fun e => entry_rain e.rain) := by
  exact ⟨(claim10_parse_failure c10bad).1 ⟨_, List.mem_cons_self _ _, by decide⟩,
    (claim10_parse_failure c10good).2 (by decide)⟩

/-- Claim C8: the dashboard generator returns no figure exactly when no
location yields any samples; with a non-empty API key the endpoint then
serves the distinct no-data page, and conversely as soon as one location
has samples it serves a dashboard page with a figure. -/
theorem claim8_no_data (fetches : List (String × FetchResult)) :
    (generate_dashboard_plot fetches = none ↔ ∀ p ∈ fetches, seriesOf p.2 = []) ∧
    ∀ k : String, k ≠ "" →
      ((index (some k) fetches = Page.noData ↔ ∀ p ∈ fetches, seriesOf p.2 = []) ∧
        ((∃ p ∈ fetches, seriesOf p.2 ≠ []) →
          ∃ fig, index (some k) fetches = Page.dashboard fig)) := by
  have hkey : ((fetches.map (fun p => (p.1, seriesOf p.2))).map
      (fun p => p.2.map (fun s => s.time))).flatten = []
      ↔ ∀ p ∈ fetches, seriesOf p.2 = [] := by
    rw [List.map_map, List.flatten_eq_nil_iff]
    constructor
    · intro hall p hp
      have hm := hall _ (List.mem_map_of_mem
        ((fun p => p.2.map (fun s => s.time)) ∘ fun p => (p.1, seriesOf p.2)) hp)
      simpa using hm
    · intro hall l hl
      rcases List.mem_map.mp hl with ⟨p, hp, rfl⟩
      simp [hall p hp]
  have hgen : generate_dashboard_plot fetches = none ↔ ∀ p ∈ fetches, seriesOf p.2 = [] := by
    simp only [generate_dashboard_plot]
    split_ifs with hc
    · exact iff_of_true rfl (hkey.mp (List.isEmpty_iff.mp hc))
    · exact iff_of_false (by simp) fun hall => hc (List.isEmpty_iff.mpr (hkey.mpr hall))
  refine ⟨hgen, ?_⟩
  intro k hk
  have hidx : index (some k) fetches =
      (match generate_dashboard_plot fetches with
        | none => Page.noData
        | some fig => Page.dashboard fig) := by
    rw [index, if_neg (by simpa using hk)]
  constructor
  · cases hgenv : generate_dashboard_plot fetches with
    | none => exact iff_of_true (by rw [hidx, hgenv]) (hgen.mp hgenv)
    | some fig =>
      refine iff_of_false ?_ fun hall => ?_
      · rw [hidx, hgenv]
        simp
      · rw [hgen.mpr hall] at hgenv
        cases hgenv
  · intro hex
    cases hgenv : generate_dashboard_plot fetches with
    | none =>
      exfalso
      rcases hex with ⟨p, hp, hne⟩
      exact hne (hgen.mp hgenv p hp)
    | some fig => exact ⟨fig, by rw [hidx, hgenv]⟩

/-- Claim C8, witness: with the single configured location failing its
fetch, the endpoint serves the no-data page. -/
theorem claim8_witness : index (some "k") c8fetches = Page.noData := by
  exact ((claim8_no_data c8fetches).2 "k" (by decide)).1.mpr (by decide)

end Climbing
